import Mathlib

/-!
Shallow embedding of the notification_app core.

Sources embedded here:
- app/db/models.py        (Post / Notification dataclasses)
- app/db/database.py      (DatabaseManager operations over the SQLite tables)
- app/services/notification.py (NotificationService)
- app/services/polling.py (the rate_limit decorator)

Modelling conventions:
- wall-clock instants (datetime values, CURRENT_TIMESTAMP) are Nat seconds;
  the current time is passed explicitly to every operation that reads the clock;
- SQLite tables are Lean lists of row structures, the whole database is the
  DB structure; AUTOINCREMENT ids are a nextNotificationId counter;
- nullable columns and optional JSON keys are Option values; Python truthiness
  of a string is the test for none / empty string;
- external capabilities are parameters: the md5-derived device id is an
  arbitrary function deriveDeviceId passed in, the sha256 digest behind post id
  generation is a parameter sha8, and the web-push transport result is a
  PushOutcome value handed to send_push_notification.
-/

/-- Row of the posts table (app/db/database.py, _SCHEMA). -/
structure PostRow where
  id : String
  title : String
  content : String
  publishDate : Option Nat
  category : String
  department : String
  location : String
  isUrgent : Bool
  hasImage : Bool
  imageUrl : Option String
  likes : Int
  comments : Int
  link : Option String
  createdAt : Nat
  updatedAt : Nat
deriving DecidableEq, Repr

/-- Post dataclass (app/db/models.py).  After a successful __post_init__ the id
field is always set, so it is a plain String here; construction together with
its validation is mkPost below. -/
structure Post where
  title : String
  content : String
  publishDate : Nat
  location : String
  department : String
  category : String
  id : String
  link : Option String
  isUrgent : Bool
  likes : Int
  comments : Int
  hasImage : Bool
  imageUrl : Option String
deriving DecidableEq, Repr

/-- Parsed JSON value of a stored locationFilter: both keys may be absent. -/
structure LocationFilterJson where
  enabled : Option Bool
  locations : Option (List String)
deriving DecidableEq, Repr

/-- Parsed JSON value of a stored keywordFilter. -/
structure KeywordFilterJson where
  enabled : Option Bool
deriving DecidableEq, Repr

/-- Parsed JSON settings blob of one notification_settings row.  Every key may
be absent, mirroring a Python dict that holds any subset of the keys. -/
structure StoredSettings where
  language : Option String
  desktopNotifications : Option Bool
  pushNotifications : Option Bool
  updateInterval : Option Nat
  locationFilter : Option LocationFilterJson
  keywordFilter : Option KeywordFilterJson
  keywords : Option (List String)
deriving DecidableEq, Repr

/-- A StoredSettings with every key absent: the empty Python dict. -/
def emptyStoredSettings : StoredSettings :=
  { language := none, desktopNotifications := none, pushNotifications := none,
    updateInterval := none, locationFilter := none, keywordFilter := none,
    keywords := none }

/-- Row of the notifications table. -/
structure NotifRow where
  id : Nat
  postId : String
  title : String
  message : String
  imageUrl : Option String
  isUrgent : Bool
  createdAt : Nat
  expiresAt : Option Nat
deriving DecidableEq, Repr

/-- Row of the user_notifications table. -/
structure UserNotifRow where
  userId : String
  notificationId : Nat
  isRead : Bool
  readAt : Option Nat
  createdAt : Nat
deriving DecidableEq, Repr

/-- Row of the push_subscriptions table. -/
structure SubRow where
  endpoint : String
  auth : String
  p256dh : String
  userKey : Option String
  deviceId : Option String
  isActive : Bool
  lastUsed : Option Nat
deriving DecidableEq, Repr

/-- The keys sub-dict of a push subscription info dict. -/
structure SubKeys where
  p256dh : Option String
  auth : Option String
deriving DecidableEq, Repr

/-- A push subscription info dict as handled by the service layer: every key
may be missing. -/
structure SubInfo where
  endpoint : Option String
  keys : Option SubKeys
  userKey : Option String
  deviceId : Option String
deriving DecidableEq, Repr

/-- The whole persistent state handled by DatabaseManager. -/
structure DB where
  posts : List PostRow
  postLocations : List (String × String)
  nextNotificationId : Nat
  notifications : List NotifRow
  userNotifications : List UserNotifRow
  pushSubscriptions : List SubRow
  notificationSettings : List (String × StoredSettings)
  notificationKeywords : List (String × String)
deriving DecidableEq, Repr

/-- Python truthiness of an optional string: false for None and for "". -/
def truthyOpt : Option String → Bool
  | none => false
  | some s => !(s == "")

/-- DatabaseManager.get_post: first posts row with the given id. -/
def get_post (db : DB) (postId : String) : Option PostRow :=
  db.posts.find? (fun r => r.id == postId)

/-- INSERT OR REPLACE on the posts table: the conflicting row (same primary
key) is dropped and the fresh row inserted. -/
def upsertPostRow (posts : List PostRow) (row : PostRow) : List PostRow :=
  posts.filter (fun r => !(r.id == row.id)) ++ [row]

/-- DatabaseManager._add_post_locations: INSERT OR IGNORE of every non-empty
location for the post. -/
def add_post_locations (db : DB) (postId : String) (locations : List String) : DB :=
  { db with postLocations :=
      locations.foldl (fun acc loc =>
        if loc == "" then acc
        else if acc.contains (postId, loc) then acc
        else acc ++ [(postId, loc)]) db.postLocations }

/-- The posts row written by DatabaseManager._upsert_post for a Post value. -/
def postRowOf (p : Post) (createdAt updatedAt : Nat) : PostRow :=
  { id := p.id, title := p.title, content := p.content,
    publishDate := some p.publishDate, category := p.category,
    department := p.department, location := p.location, isUrgent := p.isUrgent,
    hasImage := p.hasImage, imageUrl := p.imageUrl, likes := p.likes,
    comments := p.comments, link := p.link,
    createdAt := createdAt, updatedAt := updatedAt }

/-- DatabaseManager.add_post: insert or update only if title or content
changed; returns whether anything was written. -/
def add_post (db : DB) (now : Nat) (p : Post) : DB × Bool :=
  match get_post db p.id with
  | some existing =>
    if existing.title == p.title && existing.content == p.content then (db, false)
    else
      let db1 := { db with posts := upsertPostRow db.posts (postRowOf p existing.createdAt now) }
      (add_post_locations db1 p.id [p.location], true)
  | none =>
    let db1 := { db with posts := upsertPostRow db.posts (postRowOf p now now) }
    (add_post_locations db1 p.id [p.location], true)

/-- DatabaseManager.add_posts_bulk: the per-post loop of the source, returning
the final state and the list of posts actually inserted or updated, in input
order. -/
def add_posts_bulk : DB → Nat → List Post → DB × List Post
  | db, _, [] => (db, [])
  | db, now, p :: ps =>
    match get_post db p.id with
    | some existing =>
      if existing.title == p.title && existing.content == p.content then
        add_posts_bulk db now ps
      else
        let db1 := add_post_locations
          { db with posts := upsertPostRow db.posts (postRowOf p existing.createdAt now) }
          p.id [p.location]
        let rest := add_posts_bulk db1 now ps
        (rest.1, p :: rest.2)
    | none =>
      let db1 := add_post_locations
        { db with posts := upsertPostRow db.posts (postRowOf p now now) }
        p.id [p.location]
      let rest := add_posts_bulk db1 now ps
      (rest.1, p :: rest.2)

/-- The Notification dataclass after __post_init__ (app/db/models.py):
expires_at is always set (created_at + 30 days when not given).  The
sha256-based _generate_id value is irrelevant on every modelled path because
the service overwrites id with the database row id; it is left none here. -/
structure Notif where
  postId : String
  title : String
  message : String
  createdAt : Nat
  id : Option String
  isUrgent : Bool
  expiresAt : Nat
  imageUrl : Option String
deriving DecidableEq, Repr

/-- DatabaseManager.add_notification: append the row, hand out the
AUTOINCREMENT id (the cursor's lastrowid). -/
def add_notification (db : DB) (n : Notif) : DB × Nat :=
  let nid := db.nextNotificationId
  ({ db with
      notifications := db.notifications ++
        [{ id := nid, postId := n.postId, title := n.title, message := n.message,
           imageUrl := n.imageUrl, isUrgent := n.isUrgent, createdAt := n.createdAt,
           expiresAt := some n.expiresAt }],
      nextNotificationId := nid + 1 }, nid)

/-- DatabaseManager.add_user_notifications_bulk: one unread row per user id
(no-op on the empty list, as in the source). -/
def add_user_notifications_bulk (db : DB) (now : Nat) (notificationId : Nat)
    (userIds : List String) : DB :=
  let rows := userIds.map (fun u =>
    { userId := u, notificationId := notificationId, isRead := false,
      readAt := none, createdAt := now : UserNotifRow })
  match userIds with
  | [] => db
  | _ => { db with userNotifications := db.userNotifications ++ rows }

/-- DatabaseManager.mark_all_user_notifications_read: set is_read on every
unread row of the user; the Bool is rowcount > 0. -/
def mark_all_user_notifications_read (db : DB) (now : Nat) (userId : String) :
    DB × Bool :=
  let updated := db.userNotifications.map (fun r =>
    if r.userId == userId && !r.isRead then
      { r with isRead := true, readAt := some now }
    else r)
  let changed := (db.userNotifications.filter
    (fun r => r.userId == userId && !r.isRead)).length
  ({ db with userNotifications := updated }, decide (0 < changed))

/-- expires_at IS NULL OR expires_at > now. -/
def notExpired (n : NotifRow) (now : Nat) : Bool :=
  match n.expiresAt with
  | none => true
  | some t => now < t

/-- DatabaseManager.get_user_notification_count: rows of the join of
user_notifications with a non-expired notifications row, for the user,
restricted to unread rows when unreadOnly. -/
def get_user_notification_count (db : DB) (userId : String) (unreadOnly : Bool)
    (now : Nat) : Nat :=
  (db.userNotifications.filter (fun r =>
    r.userId == userId && (!unreadOnly || !r.isRead)
      && db.notifications.any (fun n => n.id == r.notificationId && notExpired n now))).length

/-- DatabaseManager.get_push_subscriptions_for_users: for an empty key list,
all active rows with a non-null user_key when urgent, nothing otherwise; for a
non-empty key list, the active rows whose user_key is in the list. -/
def get_push_subscriptions_for_users (db : DB) (userKeys : List String)
    (urgent : Bool) : List SubRow :=
  match userKeys with
  | [] =>
    if urgent then
      db.pushSubscriptions.filter (fun r => r.isActive && r.userKey.isSome)
    else []
  | _ =>
    db.pushSubscriptions.filter (fun r =>
      (match r.userKey with
       | some k => userKeys.contains k
       | none => false) && r.isActive)

/-- DatabaseManager.get_notification_settings: the (already parsed) settings
blob of the user, if any. -/
def get_notification_settings (db : DB) (userKey : String) : Option StoredSettings :=
  (db.notificationSettings.find? (fun kv => kv.1 == userKey)).map Prod.snd

/-- DatabaseManager.get_all_notification_settings: user_key to settings map. -/
def get_all_notification_settings (db : DB) : List (String × StoredSettings) :=
  db.notificationSettings

/-- DatabaseManager.get_user_keywords. -/
def get_user_keywords (db : DB) (userKey : String) : List String :=
  (db.notificationKeywords.filter (fun kv => kv.1 == userKey)).map Prod.snd

/-- DatabaseManager.remove_push_subscription with its three fallback paths;
deriveDeviceId stands for the md5-hexdigest truncation of the endpoint. -/
def remove_push_subscription (deriveDeviceId : String → String) (db : DB)
    (info : SubInfo) (userKey : Option String) (deviceId : Option String) : DB :=
  let ep := info.endpoint.getD ""
  let dev := deviceId.getD (deriveDeviceId ep)
  if truthyOpt userKey && !(dev == "") then
    { db with pushSubscriptions := db.pushSubscriptions.filter (fun r =>
        !(r.endpoint == ep && r.userKey == userKey && r.deviceId == some dev)) }
  else if !(dev == "") then
    { db with pushSubscriptions := db.pushSubscriptions.filter (fun r =>
        !(r.endpoint == ep && r.deviceId == some dev)) }
  else
    { db with pushSubscriptions := db.pushSubscriptions.filter (fun r =>
        !(r.endpoint == ep)) }

/-- DatabaseManager.add_push_subscription called without an explicit device id
(the only call shape in the repository, app/web/main.py): INSERT OR REPLACE on
the endpoint with the derived device id and is_active = 1. -/
def add_push_subscription (deriveDeviceId : String → String) (db : DB)
    (info : SubInfo) (userKey : Option String) : DB :=
  let ep := info.endpoint.getD ""
  let row : SubRow :=
    { endpoint := ep,
      auth := ((info.keys.map SubKeys.auth).getD none).getD "",
      p256dh := ((info.keys.map SubKeys.p256dh).getD none).getD "",
      userKey := userKey, deviceId := some (deriveDeviceId ep),
      isActive := true, lastUsed := none }
  { db with pushSubscriptions :=
      db.pushSubscriptions.filter (fun r => !(r.endpoint == ep)) ++ [row] }

/-- DatabaseManager.update_subscription_last_used. -/
def update_subscription_last_used (db : DB) (endpoint : String) (now : Nat) : DB :=
  { db with pushSubscriptions := db.pushSubscriptions.map (fun r =>
      if r.endpoint == endpoint then { r with lastUsed := some now } else r) }

/-- NotificationService.MAX_CONTENT_LENGTH. -/
def MAX_CONTENT_LENGTH : Nat := 75

/-- The content truncation at the top of create_post_notification. -/
def truncateContent (content : String) : String :=
  if MAX_CONTENT_LENGTH < content.length then
    content.take (MAX_CONTENT_LENGTH - 3) ++ "..."
  else content

/-- The urgency marker prefixed to urgent notification titles. -/
def urgentMarker : String := "🚨 URGENT: "

/-- The notification title built in create_post_notification. -/
def notifTitleFor (p : Post) : String :=
  (if p.isUrgent then urgentMarker else "") ++ p.title

/-- Notification.__post_init__ default expiry: 30 days after creation. -/
def THIRTY_DAYS : Nat := 30 * 24 * 60 * 60

/-- The Notification object built by create_post_notification (both the
early-return branch and the main branch construct exactly this). -/
def mkNotif (p : Post) (content : String) (now : Nat) : Notif :=
  { postId := p.id, title := notifTitleFor p, message := content,
    createdAt := now, id := none, isUrgent := p.isUrgent,
    expiresAt := now + THIRTY_DAYS,
    imageUrl := if p.hasImage then p.imageUrl else none }

/-- The hard-coded default locationFilter of get_settings. -/
def defaultLocationFilter : LocationFilterJson :=
  { enabled := some false, locations := some [] }

/-- The hard-coded default keywordFilter of get_settings. -/
def defaultKeywordFilter : KeywordFilterJson := { enabled := some false }

/-- The settings value returned by get_settings: after
default_settings.update(settings) every top-level key is present, so each
field carries a definite value; the locationFilter and keywordFilter values
keep the inner-key optionality of whatever dict ended up under the key. -/
structure MergedSettings where
  language : String
  desktopNotifications : Bool
  pushNotifications : Bool
  updateInterval : Nat
  locationFilter : LocationFilterJson
  keywordFilter : KeywordFilterJson
  keywords : List String
deriving DecidableEq, Repr

/-- The full default settings dict of get_settings. -/
def defaultMergedSettings : MergedSettings :=
  { language := "en", desktopNotifications := true, pushNotifications := true,
    updateInterval := 5, locationFilter := defaultLocationFilter,
    keywordFilter := defaultKeywordFilter, keywords := [] }

/-- NotificationService.get_settings: defaults when no row exists; otherwise
default_settings.update(settings) — a top-level, per-key dict overlay — then
the keywords list is replaced by the user's stored keywords when non-empty. -/
def get_settings (db : DB) (userKey : String) : MergedSettings :=
  match get_notification_settings db userKey with
  | none => defaultMergedSettings
  | some s =>
    let merged : MergedSettings :=
      { language := s.language.getD "en",
        desktopNotifications := s.desktopNotifications.getD true,
        pushNotifications := s.pushNotifications.getD true,
        updateInterval := s.updateInterval.getD 5,
        locationFilter := s.locationFilter.getD defaultLocationFilter,
        keywordFilter := s.keywordFilter.getD defaultKeywordFilter,
        keywords := s.keywords.getD [] }
    let dbKeywords := get_user_keywords db userKey
    if !dbKeywords.isEmpty then { merged with keywords := dbKeywords } else merged

/-- settings.get("locationFilter", the empty dict). -/
def locationFilterOf (s : StoredSettings) : LocationFilterJson :=
  s.locationFilter.getD { enabled := none, locations := none }

/-- The per-user test of NotificationService._filter_by_location. -/
def location_included (post : Post) (s : StoredSettings) : Bool :=
  let lf := locationFilterOf s
  if !(lf.enabled.getD false) then true
  else
    let userLocations := lf.locations.getD []
    if userLocations.isEmpty then true
    else if post.location == "" then true
    else userLocations.contains post.location

/-- NotificationService._filter_by_location: the set of user keys passing the
location test, as the sub-list of keys of all_settings. -/
def filter_by_location (post : Post) (allSettings : List (String × StoredSettings)) :
    List String :=
  (allSettings.filter (fun kv => location_included post kv.2)).map Prod.fst

/-- Substring test: Python kw in content. -/
def stringContains (s sub : String) : Bool :=
  (List.range (s.data.length + 1)).any (fun i => sub.data.isPrefixOf (s.data.drop i))

/-- The per-user test of NotificationService._filter_by_keywords. -/
def keyword_included (db : DB) (post : Post) (userKey : String)
    (allSettings : List (String × StoredSettings)) : Bool :=
  let s := ((allSettings.find? (fun kv => kv.1 == userKey)).map Prod.snd).getD
    emptyStoredSettings
  let kf := s.keywordFilter.getD { enabled := some false }
  if !(kf.enabled.getD false) then true
  else
    let keywords := get_user_keywords db userKey
    if keywords.isEmpty then true
    else
      let contentLower := (post.title ++ " " ++ post.content).toLower
      keywords.any (fun kw => stringContains contentLower kw.toLower)

/-- NotificationService._filter_by_keywords over the location-filtered users. -/
def filter_by_keywords (db : DB) (post : Post) (locationFilteredUsers : List String)
    (allSettings : List (String × StoredSettings)) : List String :=
  locationFilteredUsers.filter (fun u => keyword_included db post u allSettings)

/-- NotificationService._get_filtered_users_for_post: location filter then
keyword filter (the early return on an empty location set equals filtering the
empty list). -/
def get_filtered_users_for_post (db : DB) (post : Post) : List String :=
  let allSettings := get_all_notification_settings db
  let locationFiltered := filter_by_location post allSettings
  filter_by_keywords db post locationFiltered allSettings

/-- The pushNotifications opt-out check of _deliver_notification:
all_settings.get(user_key, the empty dict).get("pushNotifications", True). -/
def push_enabled (allSettings : List (String × StoredSettings)) (userKey : String) :
    Bool :=
  match (allSettings.find? (fun kv => kv.1 == userKey)).map Prod.snd with
  | none => true
  | some s => s.pushNotifications.getD true

/-- NotificationService._deliver_notification up to the executor: the list of
subscriptions actually submitted for delivery (one send_push_notification
call each).  None target means the urgent all-subscriptions query. -/
def deliver_dispatch_list (db : DB) (targetUsers : Option (List String)) :
    List SubRow :=
  let subscriptions :=
    match targetUsers with
    | none => get_push_subscriptions_for_users db [] true
    | some ts => get_push_subscriptions_for_users db ts false
  let allSettings := get_all_notification_settings db
  subscriptions.filter (fun sub =>
    truthyOpt sub.userKey && push_enabled allSettings (sub.userKey.getD ""))

/-- The urgent-path target set of create_post_notification: the Python set
union of the user keys of all active subscriptions that are non-null and
non-empty, and the keys of all stored settings rows. -/
def urgent_user_union (db : DB) : List String :=
  (((get_push_subscriptions_for_users db [] true).filterMap (fun sub =>
      match sub.userKey with
      | some k => if k == "" then none else some k
      | none => none))
    ++ (get_all_notification_settings db).map Prod.fst).dedup

/-- Result of one webpush transport attempt as seen by
send_push_notification: success, a WebPushException carrying an optional
response status, or an error while preparing the payload. -/
inductive PushOutcome where
  | success
  | webPushError (status : Option Nat)
  | prepError
deriving DecidableEq, Repr

/-- e.response and e.response.status_code in (400, 404, 410, 413). -/
def permanentStatus : Option Nat → Bool
  | some code => code == 400 || code == 404 || code == 410 || code == 413
  | none => false

/-- NotificationService._validate_subscription. -/
def validate_subscription (sub : SubInfo) : Bool :=
  sub.endpoint.isSome &&
    (match sub.keys with
     | none => false
     | some ks => ks.p256dh.isSome && ks.auth.isSome)

/-- NotificationService.send_push_notification: every outcome is a Bool (the
try/except never lets an exception past this boundary); a permanent-failure
status removes the subscription, success refreshes last_used. -/
def send_push_notification (deriveDeviceId : String → String)
    (vapidConfigured : Bool) (db : DB) (now : Nat) (sub : SubInfo)
    (outcome : PushOutcome) : DB × Bool :=
  if !(validate_subscription sub) then (db, false)
  else if !vapidConfigured then (db, false)
  else
    match outcome with
    | .prepError => (db, false)
    | .success =>
      let db1 :=
        if truthyOpt sub.endpoint then
          update_subscription_last_used db (sub.endpoint.getD "") now
        else db
      (db1, true)
    | .webPushError status =>
      if permanentStatus status then
        (remove_push_subscription deriveDeviceId db sub none none, false)
      else (db, false)

/-- Lines 217-255 of app/services/notification.py: the code shared by the
urgent and the non-empty-target paths of create_post_notification.  Returns
the new state, the returned Notification, and the dispatch list of
_deliver_notification (the delivery attempts made). -/
def create_post_notification_aux (db : DB) (now : Nat) (post : Post)
    (content : String) (targetUsers : Option (List String)) :
    DB × Option Notif × List SubRow :=
  let notif := mkNotif post content now
  let res := add_notification db notif
  let db1 := res.1
  let nid := res.2
  if nid == 0 then (db1, none, [])
  else
    let db2 :=
      match targetUsers with
      | none =>
        let union := urgent_user_union db1
        if union.isEmpty then db1
        else add_user_notifications_bulk db1 now nid union
      | some ts =>
        if ts.isEmpty then db1
        else add_user_notifications_bulk db1 now nid ts
    let notif1 := { notif with id := some (toString nid) }
    let attempts :=
      match targetUsers with
      | none => deliver_dispatch_list db2 none
      | some ts => if ts.isEmpty then [] else deliver_dispatch_list db2 (some ts)
    (db2, some notif1, attempts)

/-- NotificationService.create_post_notification.  The ValueError fallback
branch is unreachable for Post values that passed Post.__post_init__
validation (non-empty id, title and content), which the claim theorems carry
as hypotheses. -/
def create_post_notification (db : DB) (now : Nat) (post : Post) :
    DB × Option Notif × List SubRow :=
  let content := truncateContent post.content
  if post.isUrgent then
    create_post_notification_aux db now post content none
  else
    let targets := get_filtered_users_for_post db post
    if targets.isEmpty then
      let notif := mkNotif post content now
      let res := add_notification db notif
      let notif1 :=
        if res.2 == 0 then notif else { notif with id := some (toString res.2) }
      (res.1, some notif1, [])
    else
      create_post_notification_aux db now post content (some targets)

/-- Post._generate_id (app/db/models.py): sha8 stands for the truncated
sha256 hexdigest (external hashlib) and the decimal rendering of the Nat
instant stands for isoformat/timestamp. -/
def generate_post_id (sha8 : String → String) (title content : String)
    (publishDate : Nat) (location department category : String) : String :=
  sha8 (title ++ content ++ toString publishDate ++ location ++ department
    ++ category) ++ "-" ++ toString publishDate

/-- Python str.strip(): drop leading and trailing whitespace (implemented on
the character list so it computes by kernel reduction). -/
def pyStrip (s : String) : String :=
  ⟨((s.data.dropWhile Char.isWhitespace).reverse.dropWhile
      Char.isWhitespace).reverse⟩

/-- Post construction with __post_init__ (app/db/models.py): ValueError when
any of the five required text fields is empty or whitespace-only (the
isinstance checks are vacuous in this typed embedding), then the id is
generated when missing or empty. -/
def mkPost (sha8 : String → String) (title content : String) (publishDate : Nat)
    (location department category : String) (idArg : Option String)
    (link : Option String) (isUrgent : Bool) (likes comments : Int)
    (hasImage : Bool) (imageUrl : Option String) : Except String Post :=
  if pyStrip title == "" then
    .error "Title is required and must be a non-empty string"
  else if pyStrip content == "" then
    .error "Content is required and must be a non-empty string"
  else if pyStrip location == "" then
    .error "Location is required and must be a non-empty string"
  else if pyStrip department == "" then
    .error "Department is required and must be a non-empty string"
  else if pyStrip category == "" then
    .error "Category is required and must be a non-empty string"
  else
    let genId := generate_post_id sha8 title content publishDate location
      department category
    .ok { title := title, content := content, publishDate := publishDate,
          location := location, department := department, category := category,
          id := match idArg with
                | some i => if i == "" then genId else i
                | none => genId,
          link := link, isUrgent := isUrgent, likes := likes,
          comments := comments, hasImage := hasImage, imageUrl := imageUrl }

/-- Internal state of the rate_limit decorator (app/services/polling.py):
last_reset, calls_made, and the instant the lock becomes free (the lock is
held through the sleep, so callers are serialized). -/
structure RLState where
  lastReset : Nat
  made : Nat
  clock : Nat
deriving DecidableEq, Repr

/-- One granted call of the rate-limited function: when it was requested,
when it was allowed to run, and the last_reset value (window identity) under
which it was counted. -/
structure GrantRec where
  arrival : Nat
  grant : Nat
  epoch : Nat
deriving DecidableEq, Repr

/-- One pass through the rate_limit wrapper body for a caller arriving at
the given instant: reset the window if a full period elapsed, sleep out the
remainder of the window when the budget is exhausted (resetting the window on
wake), then count and run the call. -/
def rlStep (calls period : Nat) (st : RLState) (arrival : Nat) :
    RLState × GrantRec :=
  let now := max arrival st.clock
  let lr := if period ≤ now - st.lastReset then now else st.lastReset
  let made := if period ≤ now - st.lastReset then 0 else st.made
  if calls ≤ made then
    let sleepT := period - (now - lr)
    let t := now + sleepT
    (⟨t, 1, t⟩, ⟨arrival, t, t⟩)
  else
    (⟨lr, made + 1, now⟩, ⟨arrival, now, lr⟩)

/-- The sequence of grants for a sequence of call arrivals, from a state. -/
def rlRunFrom (calls period : Nat) : RLState → List Nat → List GrantRec
  | _, [] => []
  | st, a :: as =>
    let step := rlStep calls period st a
    step.2 :: rlRunFrom calls period step.1 as

/-- A fresh rate_limit decorator created at instant t0 processing the given
arrivals in order. -/
def rlRun (calls period t0 : Nat) (arrivals : List Nat) : List GrantRec :=
  rlRunFrom calls period ⟨t0, 0, t0⟩ arrivals

/-- An empty database with the AUTOINCREMENT counter at its initial value. -/
def emptyDB : DB :=
  { posts := [], postLocations := [], nextNotificationId := 1,
    notifications := [], userNotifications := [], pushSubscriptions := [],
    notificationSettings := [], notificationKeywords := [] }

/-- An active push subscription whose user_key is the empty string (non-null). -/
def subEmptyKey : SubRow :=
  { endpoint := "ep", auth := "a", p256dh := "p", userKey := some "",
    deviceId := some "d", isActive := true, lastUsed := none }

/-- An active push subscription owned by user alice. -/
def subAlice : SubRow :=
  { endpoint := "ep2", auth := "a", p256dh := "p", userKey := some "alice",
    deviceId := some "d2", isActive := true, lastUsed := none }

/-- Database holding only the empty-string-key subscription. -/
def dbEmptyKeySub : DB := { emptyDB with pushSubscriptions := [subEmptyKey] }

/-- Database with one named subscription and two settings users. -/
def dbTwoUsers : DB :=
  { emptyDB with
    pushSubscriptions := [subAlice],
    notificationSettings :=
      [("bob", emptyStoredSettings), ("alice", emptyStoredSettings)] }

/-- A minimal valid urgent post. -/
def urgentPost : Post :=
  { title := "T", content := "C", publishDate := 0, location := "L",
    department := "D", category := "K", id := "pid", link := none,
    isUrgent := true, likes := 0, comments := 0, hasImage := false,
    imageUrl := none }

/-- The same post, not urgent. -/
def normalPost : Post := { urgentPost with isUrgent := false }

/-- Stored settings whose locationFilter dict is present but omits the
locations key. -/
def settingsNoLocations : StoredSettings :=
  { emptyStoredSettings with
    locationFilter := some { enabled := some true, locations := none } }

/-- Database with one settings row whose locationFilter omits locations. -/
def dbNoLocations : DB :=
  { emptyDB with notificationSettings := [("u", settingsNoLocations)] }

/-- A well-formed subscription info dict for endpoint ep. -/
def subInfoEp : SubInfo :=
  { endpoint := some "ep", keys := some { p256dh := some "p", auth := some "a" },
    userKey := some "alice", deviceId := some "dev" }

/-- Database holding the stored row for endpoint ep with the device id that
deriveDeviceIdW yields. -/
def dbEp : DB :=
  { emptyDB with pushSubscriptions :=
      [{ subAlice with endpoint := "ep", deviceId := some "DEV" }] }

/-- A concrete stand-in for the md5 device-id derivation. -/
def deriveDeviceIdW : String → String := fun _ => "DEV"

/-- A stored posts row matching normalPost on title and content. -/
def rowStored : PostRow := postRowOf normalPost 3 4

/-- Database already holding rowStored. -/
def dbStored : DB := { emptyDB with posts := [rowStored] }

/-- A second post, distinct id from normalPost. -/
def otherPost : Post := { normalPost with id := "pid2", title := "T2" }

/-- Database with one notification and two unread user rows. -/
def dbUnread : DB :=
  { emptyDB with
    nextNotificationId := 2,
    notifications := [{ id := 1, postId := "p", title := "t", message := "m",
                        imageUrl := none, isUrgent := false, createdAt := 0,
                        expiresAt := some 100 }],
    userNotifications :=
      [{ userId := "u", notificationId := 1, isRead := false, readAt := none,
         createdAt := 0 },
       { userId := "v", notificationId := 1, isRead := false, readAt := none,
         createdAt := 0 }] }

/-- A post's stored row exists and matches it on title and content — the
condition under which add_post / add_posts_bulk skip the write. -/
def storedMatch (db : DB) (p : Post) : Prop :=
  ∃ r, get_post db p.id = some r ∧ r.title = p.title ∧ r.content = p.content

/-- Stored settings of a user filtering for Building B only. -/
def settingsBuildingB : StoredSettings :=
  { emptyStoredSettings with
    locationFilter := some { enabled := some true,
                             locations := some ["Building B"] } }

/-- A non-urgent post located in Building A. -/
def postBuildingA : Post := { normalPost with location := "Building A" }

lemma mark_map_idem (u : String) (t1 t2 : Nat) (l : List UserNotifRow) :
    ((l.map (fun r =>
        if r.userId == u && !r.isRead then { r with isRead := true, readAt := some t1 }
        else r)).map (fun r =>
        if r.userId == u && !r.isRead then { r with isRead := true, readAt := some t2 }
        else r))
      = l.map (fun r =>
        if r.userId == u && !r.isRead then { r with isRead := true, readAt := some t1 }
        else r) := by
  rw [List.map_map]
  apply List.map_congr_left
  intro r _
  by_cases h1 : (r.userId == u) = true <;> by_cases h2 : r.isRead <;>
    simp [Function.comp, h1, h2]

lemma mark_count_zero (db : DB) (u : String) (t now : Nat) :
    get_user_notification_count (mark_all_user_notifications_read db t u).1 u true now
      = 0 := by
  simp only [get_user_notification_count, mark_all_user_notifications_read]
  rw [List.length_eq_zero, List.filter_eq_nil_iff]
  intro r hr
  rw [List.mem_map] at hr
  obtain ⟨r0, -, rfl⟩ := hr
  by_cases h1 : (r0.userId == u) = true <;> by_cases h2 : r0.isRead <;>
    simp [h1, h2]

/-- C8: marking all of a user's notifications read twice in a row is
idempotent — the state after the second call equals the state after the
first, and the unread count is zero after the first call and still zero
after the second.  (The second call returns normally: the model is a total
function; the UPDATE simply matches no rows.) -/
theorem claim_C8 (db : DB) (u : String) (t1 t2 now : Nat) :
    (mark_all_user_notifications_read
        (mark_all_user_notifications_read db t1 u).1 t2 u).1
      = (mark_all_user_notifications_read db t1 u).1
    ∧ get_user_notification_count
        (mark_all_user_notifications_read db t1 u).1 u true now = 0
    ∧ get_user_notification_count
        (mark_all_user_notifications_read
          (mark_all_user_notifications_read db t1 u).1 t2 u).1 u true now = 0 := by
  have heq : (mark_all_user_notifications_read
      (mark_all_user_notifications_read db t1 u).1 t2 u).1
      = (mark_all_user_notifications_read db t1 u).1 := by
    simp only [mark_all_user_notifications_read]
    rw [mark_map_idem]
  exact ⟨heq, mark_count_zero db u t1 now, by rw [heq]; exact mark_count_zero db u t1 now⟩

/-- C9: Post construction fails with ValueError whenever any of the five
required text fields is empty or whitespace-only (the isinstance checks are
vacuously true in this typed embedding), and consequently every successfully
constructed Post has a non-empty, non-whitespace location. -/
theorem claim_C9 (sha8 : String → String) (title content : String)
    (publishDate : Nat) (location department category : String)
    (idArg link : Option String) (isUrgent : Bool) (likes comments : Int)
    (hasImage : Bool) (imageUrl : Option String) :
    ((pyStrip title = "" ∨ pyStrip content = "" ∨ pyStrip location = ""
        ∨ pyStrip department = "" ∨ pyStrip category = "") →
      ∃ e, mkPost sha8 title content publishDate location department category
        idArg link isUrgent likes comments hasImage imageUrl = Except.error e)
    ∧ (∀ p, mkPost sha8 title content publishDate location department category
        idArg link isUrgent likes comments hasImage imageUrl = Except.ok p →
        p.location = location ∧ p.location ≠ "" ∧ pyStrip p.location ≠ "") := by
  unfold mkPost
  split_ifs with h1 h2 h3 h4 h5
  · exact ⟨fun _ => ⟨_, rfl⟩, fun p hp => hp.elim⟩
  · exact ⟨fun _ => ⟨_, rfl⟩, fun p hp => hp.elim⟩
  · exact ⟨fun _ => ⟨_, rfl⟩, fun p hp => hp.elim⟩
  · exact ⟨fun _ => ⟨_, rfl⟩, fun p hp => hp.elim⟩
  · exact ⟨fun _ => ⟨_, rfl⟩, fun p hp => hp.elim⟩
  · constructor
    · rintro (h | h | h | h | h)
      · exact absurd (by simp [h]) h1
      · exact absurd (by simp [h]) h2
      · exact absurd (by simp [h]) h3
      · exact absurd (by simp [h]) h4
      · exact absurd (by simp [h]) h5
    · intro p hp
      simp only [Except.ok.injEq] at hp
      subst hp
      refine ⟨rfl, fun hl => ?_, fun hl => ?_⟩
      · apply h3
        have hl2 : location = "" := hl
        rw [hl2]
        rfl
      · apply h3
        have hl2 : pyStrip location = "" := hl
        simp [hl2]

/-- C9 witness: a whitespace-only location is rejected, and a valid
construction yields a post with a non-empty location. -/
theorem claim_C9_witness :
    (∃ e, mkPost (fun _ => "h") "T" "C" 0 "  " "D" "K" none none false 0 0
      false none = Except.error e)
    ∧ (urgentPost.location = "L" ∧ urgentPost.location ≠ ""
        ∧ pyStrip urgentPost.location ≠ "") :=
  ⟨(claim_C9 (fun _ => "h") "T" "C" 0 "  " "D" "K" none none false 0 0
      false none).1 (Or.inr (Or.inr (Or.inl (by decide)))),
   (claim_C9 (fun _ => "h") "T" "C" 0 "L" "D" "K" (some "pid") none true 0 0
      false none).2 urgentPost rfl⟩

/-- C10: every subscription handed to send_push_notification by
_deliver_notification — on the urgent path (targetUsers none) and on the
targeted path alike — carries a non-null, non-empty user_key; key-less
subscriptions are dropped before dispatch. -/
theorem claim_C10 (db : DB) (targetUsers : Option (List String)) (sub : SubRow)
    (h : sub ∈ deliver_dispatch_list db targetUsers) :
    ∃ k, sub.userKey = some k ∧ k ≠ "" := by
  simp only [deliver_dispatch_list] at h
  rw [List.mem_filter] at h
  obtain ⟨-, hcond⟩ := h
  rw [Bool.and_eq_true] at hcond
  obtain ⟨ht, -⟩ := hcond
  cases hk : sub.userKey with
  | none => rw [hk] at ht; simp [truthyOpt] at ht
  | some k =>
    refine ⟨k, rfl, fun hke => ?_⟩
    rw [hk] at ht
    simp [truthyOpt, hke] at ht

/-- C10 witness: a dispatched subscription on the targeted path has the
non-empty user key alice. -/
theorem claim_C10_witness : ∃ k, subAlice.userKey = some k ∧ k ≠ "" :=
  claim_C10 dbTwoUsers (some ["alice"]) subAlice (by decide)

/-- C4: for a non-urgent post whose resolved target set is empty, the
notification row is still created and persisted and the Notification is
returned with its assigned id, while zero UserNotification rows are created
and zero delivery attempts are made; the path returns normally.  The
non-emptiness hypotheses on id, title and content are the Post
__post_init__ guarantees that keep the ValueError fallback unreachable. -/
theorem claim_C4 (db : DB) (now : Nat) (post : Post)
    (hurgent : post.isUrgent = false)
    (hempty : get_filtered_users_for_post db post = [])
    (hnid : 1 ≤ db.nextNotificationId)
    (_htitle : post.title ≠ "") (_hcontent : post.content ≠ "")
    (_hpid : post.id ≠ "") :
    create_post_notification db now post =
      ({ db with
          notifications := db.notifications ++
            [{ id := db.nextNotificationId, postId := post.id,
               title := notifTitleFor post,
               message := truncateContent post.content,
               imageUrl := if post.hasImage then post.imageUrl else none,
               isUrgent := post.isUrgent, createdAt := now,
               expiresAt := some (now + THIRTY_DAYS) }],
          nextNotificationId := db.nextNotificationId + 1 },
       some { postId := post.id, title := notifTitleFor post,
              message := truncateContent post.content, createdAt := now,
              id := some (toString db.nextNotificationId),
              isUrgent := post.isUrgent, expiresAt := now + THIRTY_DAYS,
              imageUrl := if post.hasImage then post.imageUrl else none },
       ([] : List SubRow)) := by
  have hz : (db.nextNotificationId == 0) = false := by
    rw [beq_eq_false_iff_ne]
    omega
  simp [create_post_notification, hurgent, hempty, add_notification, mkNotif, hz]

/-- C4 witness: with only a key-less subscription and no settings users, a
non-urgent post yields a persisted notification, no user rows and no
delivery attempts. -/
theorem claim_C4_witness :
    (create_post_notification dbEmptyKeySub 5 normalPost).1.userNotifications = []
    ∧ (create_post_notification dbEmptyKeySub 5 normalPost).2.2 = []
    ∧ (create_post_notification dbEmptyKeySub 5 normalPost).1.notifications.length = 1
    ∧ ((create_post_notification dbEmptyKeySub 5 normalPost).2.1.map Notif.id)
        = some (some "1") := by
  have h := claim_C4 dbEmptyKeySub 5 normalPost (by decide) (by decide)
    (by decide) (by decide) (by decide) (by decide)
  rw [h]
  exact ⟨rfl, rfl, rfl, rfl⟩

lemma assoc_keys_unique {β : Type} (l : List (String × β)) (a : String) (b c : β)
    (hnd : (l.map Prod.fst).Nodup) (hb : (a, b) ∈ l) (hc : (a, c) ∈ l) :
    b = c := by
  induction l with
  | nil => cases hb
  | cons kv tl ih =>
    rw [List.map_cons, List.nodup_cons] at hnd
    rcases List.mem_cons.mp hb with hb' | hb' <;>
      rcases List.mem_cons.mp hc with hc' | hc'
    · exact congrArg Prod.snd (hb'.trans hc'.symm)
    · exfalso
      apply hnd.1
      have hkey : kv.1 = a := by rw [← hb']
      rw [hkey]
      exact List.mem_map.mpr ⟨(a, c), hc', rfl⟩
    · exfalso
      apply hnd.1
      have hkey : kv.1 = a := by rw [← hc']
      rw [hkey]
      exact List.mem_map.mpr ⟨(a, b), hb', rfl⟩
    · exact ih hnd.2 hb' hc'

lemma mem_filter_by_location (post : Post)
    (allSettings : List (String × StoredSettings)) (u : String)
    (s : StoredSettings) (hnd : (allSettings.map Prod.fst).Nodup)
    (hmem : (u, s) ∈ allSettings) :
    u ∈ filter_by_location post allSettings ↔ location_included post s = true := by
  unfold filter_by_location
  rw [List.mem_map]
  constructor
  · rintro ⟨kv, hin, hfst⟩
    rw [List.mem_filter] at hin
    have hkv : kv = (u, kv.2) := by
      rw [← hfst]
    rw [hkv] at hin
    have := assoc_keys_unique allSettings u kv.2 s hnd hin.1 hmem
    rw [← this]
    exact hin.2
  · intro hinc
    exact ⟨(u, s), List.mem_filter.mpr ⟨hmem, hinc⟩, rfl⟩

lemma location_included_iff (post : Post) (s : StoredSettings) :
    location_included post s = true ↔
      ((locationFilterOf s).enabled.getD false = false
       ∨ ((locationFilterOf s).enabled.getD false = true
           ∧ (locationFilterOf s).locations.getD [] = [])
       ∨ post.location = ""
       ∨ post.location ∈ (locationFilterOf s).locations.getD []) := by
  unfold location_included
  cases he : (locationFilterOf s).enabled.getD false
  · simp [he]
  · cases hl : (locationFilterOf s).locations.getD [] with
    | nil => simp [he, hl]
    | cons x xs =>
      by_cases hp : (post.location == "") = true
      · have hpe : post.location = "" := eq_of_beq hp
        simp [he, hl, hp, hpe]
      · have hne : ¬ post.location = "" := by
          intro hq
          apply hp
          rw [hq]
          rfl
        simp [he, hl, hp, hne, List.contains]

/-- C2: for a non-urgent post, a user with stored settings passes the
location filter exactly when their filter is disabled, or enabled with an
empty locations list, or the post's location is empty, or the post's
location is one of their selected locations; in particular a user with an
enabled, non-empty filter is excluded whenever the post's location is
non-empty and not selected. -/
theorem claim_C2 (post : Post) (allSettings : List (String × StoredSettings))
    (u : String) (s : StoredSettings)
    (_hu : post.isUrgent = false)
    (hnd : (allSettings.map Prod.fst).Nodup)
    (hmem : (u, s) ∈ allSettings) :
    u ∈ filter_by_location post allSettings ↔
      ((locationFilterOf s).enabled.getD false = false
       ∨ ((locationFilterOf s).enabled.getD false = true
           ∧ (locationFilterOf s).locations.getD [] = [])
       ∨ post.location = ""
       ∨ post.location ∈ (locationFilterOf s).locations.getD []) :=
  (mem_filter_by_location post allSettings u s hnd hmem).trans
    (location_included_iff post s)

/-- C2 witness: the user filtering for Building B is excluded for a post in
Building A. -/
theorem claim_C2_witness :
    "u" ∉ filter_by_location postBuildingA [("u", settingsBuildingB)] :=
  fun hm => absurd
    ((claim_C2 postBuildingA [("u", settingsBuildingB)] "u" settingsBuildingB
      (by decide) (by decide) (by decide)).mp hm) (by decide)

/-- C6 counterexample: the settings merge is a top-level dict overlay, not a
deep field-by-field merge — a stored locationFilter that omits the locations
key yields a merged locationFilter whose locations field is still absent
rather than the documented default empty list. -/
theorem claim_C6_counterexample :
    get_notification_settings dbNoLocations "u" = some settingsNoLocations
    ∧ settingsNoLocations.locationFilter
        = some { enabled := some true, locations := none }
    ∧ (get_settings dbNoLocations "u").locationFilter.locations = none
    ∧ (get_settings dbNoLocations "u").locationFilter.locations ≠ some [] :=
  ⟨rfl, rfl, rfl, by decide⟩

/-- C6 amended: get_settings merges the stored settings over the defaults
per top-level field: every top-level field absent from the stored settings
takes its default, and every top-level field present overrides the default
wholesale — including its nested content, so nested keys omitted inside a
present sub-dict stay absent instead of taking defaults; the keywords field
is additionally replaced by the stored keyword table when non-empty. -/
theorem claim_C6 (db : DB) (u : String) :
    (get_notification_settings db u = none →
      get_settings db u = defaultMergedSettings)
    ∧ ∀ s, get_notification_settings db u = some s →
      ((s.language = none → (get_settings db u).language = "en")
       ∧ (∀ v, s.language = some v → (get_settings db u).language = v)
       ∧ (s.desktopNotifications = none →
           (get_settings db u).desktopNotifications = true)
       ∧ (∀ v, s.desktopNotifications = some v →
           (get_settings db u).desktopNotifications = v)
       ∧ (s.pushNotifications = none →
           (get_settings db u).pushNotifications = true)
       ∧ (∀ v, s.pushNotifications = some v →
           (get_settings db u).pushNotifications = v)
       ∧ (s.updateInterval = none → (get_settings db u).updateInterval = 5)
       ∧ (∀ v, s.updateInterval = some v → (get_settings db u).updateInterval = v)
       ∧ (s.locationFilter = none →
           (get_settings db u).locationFilter = defaultLocationFilter)
       ∧ (∀ lf, s.locationFilter = some lf →
           (get_settings db u).locationFilter = lf)
       ∧ (s.keywordFilter = none →
           (get_settings db u).keywordFilter = defaultKeywordFilter)
       ∧ (∀ kf, s.keywordFilter = some kf →
           (get_settings db u).keywordFilter = kf)
       ∧ (get_user_keywords db u ≠ [] →
           (get_settings db u).keywords = get_user_keywords db u)
       ∧ (get_user_keywords db u = [] → s.keywords = none →
           (get_settings db u).keywords = [])
       ∧ (get_user_keywords db u = [] → ∀ ks, s.keywords = some ks →
           (get_settings db u).keywords = ks)) := by
  constructor
  · intro h
    simp [get_settings, h]
  · intro s hs
    have hgs : get_settings db u =
        { language := s.language.getD "en",
          desktopNotifications := s.desktopNotifications.getD true,
          pushNotifications := s.pushNotifications.getD true,
          updateInterval := s.updateInterval.getD 5,
          locationFilter := s.locationFilter.getD defaultLocationFilter,
          keywordFilter := s.keywordFilter.getD defaultKeywordFilter,
          keywords := if (get_user_keywords db u).isEmpty
                      then s.keywords.getD []
                      else get_user_keywords db u } := by
      simp only [get_settings, hs]
      by_cases hkw : (get_user_keywords db u).isEmpty <;> simp [hkw]
    rw [hgs]
    refine ⟨?_, ?_, ?_, ?_, ?_, ?_, ?_, ?_, ?_, ?_, ?_, ?_, ?_, ?_, ?_⟩
    · intro h; simp [h]
    · intro v h; simp [h]
    · intro h; simp [h]
    · intro v h; simp [h]
    · intro h; simp [h]
    · intro v h; simp [h]
    · intro h; simp [h]
    · intro v h; simp [h]
    · intro h; simp [h]
    · intro lf h; simp [h]
    · intro h; simp [h]
    · intro kf h; simp [h]
    · intro h
      simp [List.isEmpty_iff, h]
    · intro h hk
      simp [List.isEmpty_iff, h, hk]
    · intro h ks hk
      simp [List.isEmpty_iff, h, hk]

/-- C6 witness: a stored settings row with every key absent yields the
default language after the merge. -/
theorem claim_C6_witness : (get_settings dbTwoUsers "alice").language = "en" :=
  (((claim_C6 dbTwoUsers "alice").2 emptyStoredSettings (by decide)).1) rfl

lemma mem_get_push_subs (db : DB) (keys : List String) (urgent : Bool)
    (r : SubRow) (h : r ∈ get_push_subscriptions_for_users db keys urgent) :
    r ∈ db.pushSubscriptions := by
  unfold get_push_subscriptions_for_users at h
  cases keys with
  | nil =>
    by_cases hu : urgent = true
    · rw [if_pos hu] at h
      exact (List.mem_filter.mp h).1
    · rw [if_neg hu] at h
      cases h
  | cons k ks => exact (List.mem_filter.mp h).1

lemma update_last_used_endpoints (db : DB) (ep : String) (now : Nat) :
    (update_subscription_last_used db ep now).pushSubscriptions.map SubRow.endpoint
      = db.pushSubscriptions.map SubRow.endpoint := by
  simp only [update_subscription_last_used]
  rw [List.map_map]
  apply List.map_congr_left
  intro r _
  by_cases h : (r.endpoint == ep) = true <;> simp [Function.comp, h]

lemma remove_none_pushSubscriptions (deriveDeviceId : String → String)
    (db : DB) (sub : SubInfo) :
    (remove_push_subscription deriveDeviceId db sub none none).pushSubscriptions
      = if deriveDeviceId (sub.endpoint.getD "") = "" then
          db.pushSubscriptions.filter (fun r =>
            !(r.endpoint == sub.endpoint.getD ""))
        else
          db.pushSubscriptions.filter (fun r =>
            !(r.endpoint == sub.endpoint.getD ""
              && r.deviceId == some (deriveDeviceId (sub.endpoint.getD "")))) := by
  by_cases h : deriveDeviceId (sub.endpoint.getD "") = "" <;>
    simp [remove_push_subscription, truthyOpt, h]

lemma remove_sub_absent (deriveDeviceId : String → String) (db : DB)
    (sub : SubInfo)
    (hwf : ∀ r ∈ db.pushSubscriptions, r.endpoint = sub.endpoint.getD "" →
            r.deviceId = some (deriveDeviceId (sub.endpoint.getD "")))
    (r : SubRow)
    (hr : r ∈ (remove_push_subscription deriveDeviceId db sub none none).pushSubscriptions) :
    r.endpoint ≠ sub.endpoint.getD "" := by
  intro hep
  rw [remove_none_pushSubscriptions] at hr
  by_cases h : deriveDeviceId (sub.endpoint.getD "") = ""
  · rw [if_pos h] at hr
    rcases List.mem_filter.mp hr with ⟨-, hcond⟩
    rw [hep] at hcond
    simp at hcond
  · rw [if_neg h] at hr
    rcases List.mem_filter.mp hr with ⟨horig, hcond⟩
    have hd := hwf r horig hep
    rw [hep, hd] at hcond
    simp at hcond

/-- C5: a send_push_notification transport failure with HTTP status 400, 404,
410 or 413 removes the subscription from storage, so its endpoint is absent
from every subsequent get_push_subscriptions_for_users result; any other
transport failure leaves the state untouched; payload-preparation errors
leave the state untouched; success refreshes last_used and keeps every
subscription.  Every case returns a Bool — the model is total, mirroring the
try/except that never lets an exception past this boundary.  The hwf
hypothesis states that stored rows for this endpoint carry the derived
device id, which add_push_subscription guarantees. -/
theorem claim_C5 (deriveDeviceId : String → String) (db : DB) (now : Nat)
    (sub : SubInfo)
    (hval : validate_subscription sub = true)
    (hwf : ∀ r ∈ db.pushSubscriptions, r.endpoint = sub.endpoint.getD "" →
            r.deviceId = some (deriveDeviceId (sub.endpoint.getD ""))) :
    (∀ status, permanentStatus status = true →
      send_push_notification deriveDeviceId true db now sub (.webPushError status)
        = (remove_push_subscription deriveDeviceId db sub none none, false)
      ∧ ∀ keys urgent r,
          r ∈ get_push_subscriptions_for_users
            (send_push_notification deriveDeviceId true db now sub
              (.webPushError status)).1 keys urgent →
          r.endpoint ≠ sub.endpoint.getD "")
    ∧ (∀ status, permanentStatus status = false →
        send_push_notification deriveDeviceId true db now sub (.webPushError status)
          = (db, false))
    ∧ send_push_notification deriveDeviceId true db now sub .prepError = (db, false)
    ∧ ((send_push_notification deriveDeviceId true db now sub .success).2 = true
       ∧ (send_push_notification deriveDeviceId true db now sub
            .success).1.pushSubscriptions.map SubRow.endpoint
         = db.pushSubscriptions.map SubRow.endpoint) := by
  refine ⟨?_, ?_, ?_, ?_, ?_⟩
  · intro status hperm
    have heq : send_push_notification deriveDeviceId true db now sub
        (.webPushError status)
        = (remove_push_subscription deriveDeviceId db sub none none, false) := by
      simp [send_push_notification, hval, hperm]
    refine ⟨heq, fun keys urgent r hr => ?_⟩
    rw [heq] at hr
    exact remove_sub_absent deriveDeviceId db sub hwf r
      (mem_get_push_subs _ keys urgent r hr)
  · intro status hperm
    simp [send_push_notification, hval, hperm]
  · simp [send_push_notification, hval]
  · simp [send_push_notification, hval]
  · by_cases hep : truthyOpt sub.endpoint = true
    · simp [send_push_notification, hval, hep, update_last_used_endpoints]
    · simp [send_push_notification, hval, hep]

/-- C5 witness: on the concrete database a 410 response produces exactly the
removal state, while a 500 response leaves the database untouched. -/
theorem claim_C5_witness :
    send_push_notification deriveDeviceIdW true dbEp 3 subInfoEp
        (.webPushError (some 410))
      = (remove_push_subscription deriveDeviceIdW dbEp subInfoEp none none, false)
    ∧ send_push_notification deriveDeviceIdW true dbEp 3 subInfoEp
        (.webPushError (some 500)) = (dbEp, false) :=
  ⟨((claim_C5 deriveDeviceIdW dbEp 3 subInfoEp (by decide) (by decide)).1
      (some 410) (by decide)).1,
   (claim_C5 deriveDeviceIdW dbEp 3 subInfoEp (by decide) (by decide)).2.1
      (some 500) (by decide)⟩

lemma find_upsert_self (posts : List PostRow) (row : PostRow) (pid : String)
    (hid : row.id = pid) :
    (upsertPostRow posts row).find? (fun r => r.id == pid) = some row := by
  subst hid
  unfold upsertPostRow
  induction posts with
  | nil => simp
  | cons p ps ih =>
    rw [List.filter_cons]
    by_cases h : (p.id == row.id) = true
    · simp only [h, Bool.not_true, Bool.false_eq_true, if_false]
      exact ih
    · simp only [h, Bool.not_false, if_true]
      rw [List.cons_append, List.find?_cons_of_neg _ (by simp [h])]
      exact ih

lemma find_upsert_ne (posts : List PostRow) (row : PostRow) (pid : String)
    (h : row.id ≠ pid) :
    (upsertPostRow posts row).find? (fun r => r.id == pid)
      = posts.find? (fun r => r.id == pid) := by
  unfold upsertPostRow
  induction posts with
  | nil =>
    simp only [List.filter_nil, List.nil_append]
    rw [List.find?_cons_of_neg _ (by simp [h]), List.find?_nil]
  | cons q qs ih =>
    rw [List.filter_cons]
    by_cases hq : (q.id == row.id) = true
    · have hqp : (q.id == pid) = false := by
        rw [beq_eq_false_iff_ne]
        rw [eq_of_beq hq]
        exact h
      simp only [hq, Bool.not_true, Bool.false_eq_true, if_false]
      rw [ih, List.find?_cons_of_neg _ (by simp [hqp])]
    · simp only [hq, Bool.not_false, if_true]
      by_cases hqp : (q.id == pid) = true
      · simp only [List.cons_append, List.find?_cons, hqp]
      · have hqp2 : (q.id == pid) = false := by rwa [Bool.not_eq_true] at hqp
        simp only [List.cons_append, List.find?_cons, hqp2]
        exact ih

lemma bulk_skip_all (now : Nat) :
    ∀ (ps : List Post) (db : DB), (∀ p ∈ ps, storedMatch db p) →
      add_posts_bulk db now ps = (db, []) := by
  intro ps
  induction ps with
  | nil => intro db _; rfl
  | cons p ps ih =>
    intro db hall
    obtain ⟨r, hr, ht, hc⟩ := hall p (List.mem_cons_self p ps)
    have hbeq : (r.title == p.title && r.content == p.content) = true := by
      simp [ht, hc]
    simp only [add_posts_bulk, hr, hbeq, if_true]
    exact ih db (fun q hq => hall q (List.mem_cons_of_mem p hq))

lemma storedMatch_bulk_preserved (now : Nat) (p : Post) :
    ∀ (qs : List Post) (db : DB), storedMatch db p →
      (∀ q ∈ qs, q.id = p.id → q.title = p.title ∧ q.content = p.content) →
      storedMatch (add_posts_bulk db now qs).1 p := by
  intro qs
  induction qs with
  | nil => intro db h _; exact h
  | cons q qs ih =>
    intro db hm hcons
    have hcons' : ∀ x ∈ qs, x.id = p.id → x.title = p.title ∧ x.content = p.content :=
      fun x hx => hcons x (List.mem_cons_of_mem q hx)
    by_cases hid : q.id = p.id
    · obtain ⟨r, hr, ht, hc⟩ := hm
      obtain ⟨hqt, hqc⟩ := hcons q (List.mem_cons_self q qs) hid
      have hrq : get_post db q.id = some r := by rw [hid]; exact hr
      have hbeq : (r.title == q.title && r.content == q.content) = true := by
        rw [ht, hc, hqt, hqc]
        simp
      simp only [add_posts_bulk, hrq, hbeq, if_true]
      exact ih db ⟨r, hr, ht, hc⟩ hcons'
    · cases hq : get_post db q.id with
      | some ex =>
        by_cases hb : (ex.title == q.title && ex.content == q.content) = true
        · simp only [add_posts_bulk, hq, hb, if_true]
          exact ih db hm hcons'
        · obtain ⟨r, hr, ht, hc⟩ := hm
          have hdb1 : (upsertPostRow db.posts (postRowOf q ex.createdAt now)).find?
              (fun r => r.id == p.id) = some r :=
            (find_upsert_ne db.posts (postRowOf q ex.createdAt now) p.id hid).trans hr
          simp only [add_posts_bulk, hq, hb, Bool.false_eq_true, if_false]
          exact ih _ ⟨r, hdb1, ht, hc⟩ hcons'
      | none =>
        obtain ⟨r, hr, ht, hc⟩ := hm
        have hdb1 : (upsertPostRow db.posts (postRowOf q now now)).find?
            (fun r => r.id == p.id) = some r :=
          (find_upsert_ne db.posts (postRowOf q now now) p.id hid).trans hr
        simp only [add_posts_bulk, hq]
        exact ih _ ⟨r, hdb1, ht, hc⟩ hcons'

lemma storedMatch_after_bulk (now : Nat) :
    ∀ (ps : List Post) (db : DB),
      (∀ q ∈ ps, ∀ q2 ∈ ps, q.id = q2.id → q.title = q2.title ∧ q.content = q2.content) →
      ∀ p ∈ ps, storedMatch (add_posts_bulk db now ps).1 p := by
  intro ps
  induction ps with
  | nil => intro db _ p hp; cases hp
  | cons q qs ih =>
    intro db hcons p hp
    have step : ∃ db1 : DB,
        (add_posts_bulk db now (q :: qs)).1 = (add_posts_bulk db1 now qs).1
        ∧ storedMatch db1 q := by
      cases hq : get_post db q.id with
      | some ex =>
        by_cases hb : (ex.title == q.title && ex.content == q.content) = true
        · refine ⟨db, by simp only [add_posts_bulk, hq, hb, if_true], ?_⟩
          rw [Bool.and_eq_true] at hb
          exact ⟨ex, hq, eq_of_beq hb.1, eq_of_beq hb.2⟩
        · refine ⟨add_post_locations
            { db with posts := upsertPostRow db.posts (postRowOf q ex.createdAt now) }
            q.id [q.location], ?_, ?_⟩
          · simp only [add_posts_bulk, hq, hb, Bool.false_eq_true, if_false]
          · exact ⟨postRowOf q ex.createdAt now,
              find_upsert_self db.posts _ q.id rfl, rfl, rfl⟩
      | none =>
        refine ⟨add_post_locations
          { db with posts := upsertPostRow db.posts (postRowOf q now now) }
          q.id [q.location], ?_, ?_⟩
        · simp only [add_posts_bulk, hq]
        · exact ⟨postRowOf q now now, find_upsert_self db.posts _ q.id rfl, rfl, rfl⟩
    obtain ⟨db1, heq, hmq⟩ := step
    rw [heq]
    have hcons' : ∀ x ∈ qs, ∀ x2 ∈ qs, x.id = x2.id →
        x.title = x2.title ∧ x.content = x2.content :=
      fun x hx x2 hx2 => hcons x (List.mem_cons_of_mem q hx) x2
        (List.mem_cons_of_mem q hx2)
    rcases List.mem_cons.mp hp with rfl | hp'
    · exact storedMatch_bulk_preserved now p qs db1 hmq
        (fun q2 hq2 hid => hcons q2 (List.mem_cons_of_mem p hq2) p
          (List.mem_cons_self p qs) hid)
    · exact ih db1 hcons' p hp'

/-- C3: a post whose stored row has identical title and content is skipped by
ingestion: add_post writes nothing and reports false, the single-post bulk
returns an empty delta with the state (every row, created_at included)
unchanged, and re-ingesting any parsed post list a second time yields an
empty delta and no state change.  The hcons hypothesis — posts of the list
sharing an id agree on title and content — holds for parsed lists since the
id is derived from title and content. -/
theorem claim_C3 (db : DB) (now now2 now3 : Nat) (p : Post) (r : PostRow)
    (ps : List Post)
    (h1 : get_post db p.id = some r) (h2 : r.title = p.title)
    (h3 : r.content = p.content)
    (hcons : ∀ q ∈ ps, ∀ q2 ∈ ps, q.id = q2.id →
      q.title = q2.title ∧ q.content = q2.content) :
    add_post db now p = (db, false)
    ∧ add_posts_bulk db now [p] = (db, [])
    ∧ add_posts_bulk (add_posts_bulk db now2 ps).1 now3 ps
        = ((add_posts_bulk db now2 ps).1, []) := by
  have hsm : storedMatch db p := ⟨r, h1, h2, h3⟩
  have hbeq : (r.title == p.title && r.content == p.content) = true := by
    simp [h2, h3]
  refine ⟨?_, ?_, ?_⟩
  · simp only [add_post, h1, hbeq, if_true]
  · exact bulk_skip_all now [p] db (by
      intro q hq
      rcases List.mem_cons.mp hq with rfl | h
      · exact hsm
      · cases h)
  · exact bulk_skip_all now3 ps _ (storedMatch_after_bulk now2 ps db hcons)

/-- C3 witness: re-adding the already stored post is a no-op and re-ingesting
a two-post list a second time returns an empty delta. -/
theorem claim_C3_witness :
    add_post dbStored 9 normalPost = (dbStored, false)
    ∧ add_posts_bulk dbStored 9 [normalPost] = (dbStored, [])
    ∧ add_posts_bulk (add_posts_bulk dbStored 7 [normalPost, otherPost]).1 9
        [normalPost, otherPost]
        = ((add_posts_bulk dbStored 7 [normalPost, otherPost]).1, []) :=
  claim_C3 dbStored 9 7 9 normalPost rowStored [normalPost, otherPost]
    (by decide) (by decide) (by decide) (by decide)

lemma aub_userNotifications (db : DB) (now nid : Nat) (us : List String) :
    (add_user_notifications_bulk db now nid us).userNotifications
      = db.userNotifications ++ us.map (fun v =>
          { userId := v, notificationId := nid, isRead := false,
            readAt := none, createdAt := now }) := by
  cases us with
  | nil => simp [add_user_notifications_bulk]
  | cons a as => rfl

lemma add_notification_snd (db : DB) (n : Notif) :
    (add_notification db n).2 = db.nextNotificationId := rfl

lemma add_notification_fst_userNotifications (db : DB) (n : Notif) :
    (add_notification db n).1.userNotifications = db.userNotifications := rfl

lemma urgent_union_add_notification (db : DB) (n : Notif) :
    urgent_user_union (add_notification db n).1 = urgent_user_union db := rfl

lemma length_filter_map_rows (us : List String) (nid now : Nat) (u : String) :
    ((us.map (fun v =>
        ({ userId := v, notificationId := nid, isRead := false,
           readAt := none, createdAt := now } : UserNotifRow))).filter
      (fun r => r.notificationId == nid && r.userId == u)).length
    = (us.filter (fun v => v == u)).length := by
  induction us with
  | nil => rfl
  | cons a as ih =>
    simp only [List.map_cons, List.filter_cons]
    by_cases h : (a == u) = true
    · simp [h, ih]
    · simp [h, ih]

lemma nodup_count_filter (l : List String) (hnd : l.Nodup) (u : String) :
    (l.filter (fun v => v == u)).length = if u ∈ l then 1 else 0 := by
  induction l with
  | nil => simp
  | cons a as ih =>
    rw [List.nodup_cons] at hnd
    by_cases h : (a == u) = true
    · have hau : a = u := eq_of_beq h
      simp only [List.filter_cons, h, if_true, List.length_cons]
      rw [ih hnd.2]
      have hnotin : u ∉ as := by
        rw [← hau]
        exact hnd.1
      rw [if_neg hnotin, if_pos (by rw [← hau]; exact List.mem_cons_self a as)]
    · simp only [List.filter_cons, h, Bool.false_eq_true, if_false]
      rw [ih hnd.2]
      have hau : a ≠ u := fun he => h (by rw [he]; exact beq_self_eq_true u)
      by_cases hm : u ∈ as
      · rw [if_pos hm, if_pos (List.mem_cons_of_mem a hm)]
      · rw [if_neg hm, if_neg (by
          intro hx
          rcases List.mem_cons.mp hx with he | hm2
          · exact hau he.symm
          · exact hm hm2)]

lemma mem_urgent_union (db : DB) (u : String) :
    u ∈ urgent_user_union db ↔
      ((∃ s ∈ db.pushSubscriptions,
          s.isActive = true ∧ s.userKey = some u ∧ u ≠ "")
       ∨ u ∈ db.notificationSettings.map Prod.fst) := by
  have hq : get_push_subscriptions_for_users db [] true
      = db.pushSubscriptions.filter (fun r => r.isActive && r.userKey.isSome) :=
    rfl
  unfold urgent_user_union
  rw [hq]
  simp only [get_all_notification_settings]
  rw [List.mem_dedup, List.mem_append]
  apply or_congr _ Iff.rfl
  constructor
  · intro hx
    rw [List.mem_filterMap] at hx
    obtain ⟨s, hs, hf⟩ := hx
    rw [List.mem_filter] at hs
    cases hk : s.userKey with
    | none =>
      rw [hk] at hf
      simp at hf
    | some k =>
      rw [hk] at hf
      by_cases hke : (k == "") = true
      · simp [hke] at hf
      · have hke2 : (k == "") = false := by rwa [Bool.not_eq_true] at hke
        simp [hke2] at hf
        subst hf
        rw [Bool.and_eq_true] at hs
        refine ⟨s, hs.1, hs.2.1, hk, ?_⟩
        intro h0
        rw [h0] at hke2
        simp at hke2
  · rintro ⟨s, hs, hact, hkey, hne⟩
    rw [List.mem_filterMap]
    refine ⟨s, ?_, ?_⟩
    · rw [List.mem_filter]
      refine ⟨hs, ?_⟩
      rw [Bool.and_eq_true]
      exact ⟨hact, by rw [hkey]; rfl⟩
    · rw [hkey]
      have h2 : (u == "") = false := beq_eq_false_iff_ne.mpr hne
      simp [h2]

/-- C1 amended: for an urgent post, the set of users for which one
UserNotification row is created is exactly the union of the users holding an
active push subscription with a non-null and non-empty user_key and the
users having stored notification settings; no location or keyword filtering
is applied, and each such user gets exactly one row.  (The freshness
hypothesis is the AUTOINCREMENT invariant that no existing row references
the next notification id; the non-emptiness hypotheses are the Post
validation guarantees.) -/
theorem claim_C1 (db : DB) (now : Nat) (post : Post) (u : String)
    (hu : post.isUrgent = true)
    (hnid : 1 ≤ db.nextNotificationId)
    (hfresh : ∀ r ∈ db.userNotifications,
      r.notificationId ≠ db.nextNotificationId)
    (_htitle : post.title ≠ "") (_hcontent : post.content ≠ "")
    (_hpid : post.id ≠ "") :
    ((create_post_notification db now post).1.userNotifications.filter
        (fun r => r.notificationId == db.nextNotificationId && r.userId == u)).length
      = if (∃ s ∈ db.pushSubscriptions,
              s.isActive = true ∧ s.userKey = some u ∧ u ≠ "")
           ∨ u ∈ db.notificationSettings.map Prod.fst
        then 1 else 0 := by
  have hz : (db.nextNotificationId == 0) = false := by
    rw [beq_eq_false_iff_ne]
    omega
  have hstate : (create_post_notification db now post).1.userNotifications
      = db.userNotifications ++ (urgent_user_union db).map (fun v =>
          { userId := v, notificationId := db.nextNotificationId, isRead := false,
            readAt := none, createdAt := now }) := by
    simp only [create_post_notification, hu, if_true, create_post_notification_aux,
      add_notification_snd, hz, Bool.false_eq_true, if_false,
      urgent_union_add_notification]
    by_cases hemp : (urgent_user_union db).isEmpty = true
    · have hun : urgent_user_union db = [] := List.isEmpty_iff.mp hemp
      simp [hemp, add_notification_fst_userNotifications, hun]
    · simp only [hemp, Bool.false_eq_true, if_false]
      rw [aub_userNotifications, add_notification_fst_userNotifications]
  rw [hstate, List.filter_append, List.length_append]
  have hold : db.userNotifications.filter
      (fun r => r.notificationId == db.nextNotificationId && r.userId == u) = [] := by
    rw [List.filter_eq_nil_iff]
    intro r hr
    have := beq_eq_false_iff_ne.mpr (hfresh r hr)
    simp [this]
  rw [hold]
  simp only [List.length_nil, Nat.zero_add]
  have hnd : (urgent_user_union db).Nodup := by
    unfold urgent_user_union
    exact List.nodup_dedup _
  rw [length_filter_map_rows, nodup_count_filter (urgent_user_union db) hnd u]
  have hiff := mem_urgent_union db u
  by_cases hc : u ∈ urgent_user_union db
  · rw [if_pos hc, if_pos (hiff.mp hc)]
  · rw [if_neg hc, if_neg (fun hx => hc (hiff.mpr hx))]

/-- C1 counterexample: the claim as stated resolves the urgent target set
from every active subscription with a non-null user_key, yet the code drops
subscriptions whose user_key is the empty string (Python truthiness): with a
single active subscription whose user_key is the non-null empty string and no
stored settings, the claimed union is nonempty but zero UserNotification rows
are created. -/
theorem claim_C1_counterexample :
    (∃ s ∈ dbEmptyKeySub.pushSubscriptions,
        s.isActive = true ∧ s.userKey.isSome = true)
    ∧ urgentPost.isUrgent = true
    ∧ (create_post_notification dbEmptyKeySub 5 urgentPost).1.userNotifications
        = [] := by
  refine ⟨⟨subEmptyKey, by decide, by decide, by decide⟩, rfl, by decide⟩

/-- C1 witness: for a database with a subscription owned by alice and
settings rows for alice and bob, the urgent fan-out creates exactly one row
for alice. -/
theorem claim_C1_witness :
    ((create_post_notification dbTwoUsers 5 urgentPost).1.userNotifications.filter
        (fun r => r.notificationId == dbTwoUsers.nextNotificationId
          && r.userId == "alice")).length
      = if (∃ s ∈ dbTwoUsers.pushSubscriptions,
              s.isActive = true ∧ s.userKey = some "alice" ∧ "alice" ≠ "")
           ∨ "alice" ∈ dbTwoUsers.notificationSettings.map Prod.fst
        then 1 else 0 :=
  claim_C1 dbTwoUsers 5 urgentPost "alice" (by decide) (by decide) (by decide)
    (by decide) (by decide) (by decide)

lemma rlStep_reset (c p : Nat) (st : RLState) (a : Nat)
    (hr : p ≤ max a st.clock - st.lastReset) (hc : 1 ≤ c) :
    rlStep c p st a = (⟨max a st.clock, 1, max a st.clock⟩,
      ⟨a, max a st.clock, max a st.clock⟩) := by
  simp only [rlStep]
  rw [if_pos hr, if_pos hr, if_neg (by omega)]

lemma rlStep_grant (c p : Nat) (st : RLState) (a : Nat)
    (hr : ¬ p ≤ max a st.clock - st.lastReset) (hb : ¬ c ≤ st.made) :
    rlStep c p st a = (⟨st.lastReset, st.made + 1, max a st.clock⟩,
      ⟨a, max a st.clock, st.lastReset⟩) := by
  simp only [rlStep]
  rw [if_neg hr, if_neg hr, if_neg hb]

lemma rlStep_sleep (c p : Nat) (st : RLState) (a : Nat)
    (hr : ¬ p ≤ max a st.clock - st.lastReset) (hb : c ≤ st.made) :
    rlStep c p st a =
      (⟨max a st.clock + (p - (max a st.clock - st.lastReset)), 1,
         max a st.clock + (p - (max a st.clock - st.lastReset))⟩,
       ⟨a, max a st.clock + (p - (max a st.clock - st.lastReset)),
         max a st.clock + (p - (max a st.clock - st.lastReset))⟩) := by
  simp only [rlStep]
  rw [if_neg hr, if_neg hr, if_pos hb]

lemma rlRunFrom_cons (c p : Nat) (st : RLState) (a : Nat) (as : List Nat) :
    rlRunFrom c p st (a :: as)
      = (rlStep c p st a).2 :: rlRunFrom c p (rlStep c p st a).1 as := rfl

lemma rlStep_reset_fst (c p : Nat) (st : RLState) (a : Nat)
    (hr : p ≤ max a st.clock - st.lastReset) (hc : 1 ≤ c) :
    (rlStep c p st a).1 = ⟨max a st.clock, 1, max a st.clock⟩ := by
  rw [rlStep_reset c p st a hr hc]

lemma rlStep_reset_snd (c p : Nat) (st : RLState) (a : Nat)
    (hr : p ≤ max a st.clock - st.lastReset) (hc : 1 ≤ c) :
    (rlStep c p st a).2 = ⟨a, max a st.clock, max a st.clock⟩ := by
  rw [rlStep_reset c p st a hr hc]

lemma rlStep_grant_fst (c p : Nat) (st : RLState) (a : Nat)
    (hr : ¬ p ≤ max a st.clock - st.lastReset) (hb : ¬ c ≤ st.made) :
    (rlStep c p st a).1 = ⟨st.lastReset, st.made + 1, max a st.clock⟩ := by
  rw [rlStep_grant c p st a hr hb]

lemma rlStep_grant_snd (c p : Nat) (st : RLState) (a : Nat)
    (hr : ¬ p ≤ max a st.clock - st.lastReset) (hb : ¬ c ≤ st.made) :
    (rlStep c p st a).2 = ⟨a, max a st.clock, st.lastReset⟩ := by
  rw [rlStep_grant c p st a hr hb]

lemma rlStep_sleep_fst (c p : Nat) (st : RLState) (a : Nat)
    (hr : ¬ p ≤ max a st.clock - st.lastReset) (hb : c ≤ st.made) :
    (rlStep c p st a).1
      = ⟨max a st.clock + (p - (max a st.clock - st.lastReset)), 1,
         max a st.clock + (p - (max a st.clock - st.lastReset))⟩ := by
  rw [rlStep_sleep c p st a hr hb]

lemma rlStep_sleep_snd (c p : Nat) (st : RLState) (a : Nat)
    (hr : ¬ p ≤ max a st.clock - st.lastReset) (hb : c ≤ st.made) :
    (rlStep c p st a).2
      = ⟨a, max a st.clock + (p - (max a st.clock - st.lastReset)),
         max a st.clock + (p - (max a st.clock - st.lastReset))⟩ := by
  rw [rlStep_sleep c p st a hr hb]

lemma rl_length (c p : Nat) : ∀ (as : List Nat) (st : RLState),
    (rlRunFrom c p st as).length = as.length := by
  intro as
  induction as with
  | nil => intro st; rfl
  | cons a as ih =>
    intro st
    simp only [rlRunFrom, List.length_cons, ih]

lemma rlStep_arrival_grant (c p : Nat) (st : RLState) (a : Nat) :
    (rlStep c p st a).2.arrival = a ∧ a ≤ (rlStep c p st a).2.grant := by
  simp only [rlStep]
  by_cases hr : p ≤ max a st.clock - st.lastReset
  · rw [if_pos hr, if_pos hr]
    by_cases hb : c ≤ 0
    · rw [if_pos hb]
      refine ⟨rfl, ?_⟩
      have := le_max_left a st.clock
      simp only []
      omega
    · rw [if_neg hb]
      exact ⟨rfl, le_max_left a st.clock⟩
  · rw [if_neg hr, if_neg hr]
    by_cases hb : c ≤ st.made
    · rw [if_pos hb]
      refine ⟨rfl, ?_⟩
      have := le_max_left a st.clock
      simp only []
      omega
    · rw [if_neg hb]
      exact ⟨rfl, le_max_left a st.clock⟩

lemma rl_grant_ge_arrival (c p : Nat) : ∀ (as : List Nat) (st : RLState),
    ∀ g ∈ rlRunFrom c p st as, g.arrival ≤ g.grant := by
  intro as
  induction as with
  | nil => intro st g hg; cases hg
  | cons a as ih =>
    intro st g hg
    simp only [rlRunFrom] at hg
    rcases List.mem_cons.mp hg with rfl | hg'
    · have h := rlStep_arrival_grant c p st a
      rw [h.1]
      exact h.2
    · exact ih (rlStep c p st a).1 g hg'

lemma rl_epoch_lb (c p : Nat) (hc : 1 ≤ c) :
    ∀ (as : List Nat) (st : RLState), st.lastReset ≤ st.clock →
      ∀ g ∈ rlRunFrom c p st as, st.lastReset ≤ g.epoch := by
  intro as
  induction as with
  | nil => intro st _ g hg; cases hg
  | cons a as ih =>
    intro st hlc g hg
    have hclock : st.clock ≤ max a st.clock := le_max_right a st.clock
    by_cases hr : p ≤ max a st.clock - st.lastReset
    · rw [rlRunFrom] at hg
      rw [rlStep_reset c p st a hr hc] at hg
      rcases List.mem_cons.mp hg with rfl | hg'
      · show st.lastReset ≤ max a st.clock
        omega
      · have h2 : max a st.clock ≤ g.epoch :=
          ih ⟨max a st.clock, 1, max a st.clock⟩ (Nat.le_refl _) g hg'
        omega
    · by_cases hb : c ≤ st.made
      · rw [rlRunFrom] at hg
        rw [rlStep_sleep c p st a hr hb] at hg
        rcases List.mem_cons.mp hg with rfl | hg'
        · show st.lastReset ≤ max a st.clock + (p - (max a st.clock - st.lastReset))
          omega
        · have h2 : max a st.clock + (p - (max a st.clock - st.lastReset)) ≤ g.epoch :=
            ih ⟨max a st.clock + (p - (max a st.clock - st.lastReset)), 1,
              max a st.clock + (p - (max a st.clock - st.lastReset))⟩
              (Nat.le_refl _) g hg'
          omega
      · rw [rlRunFrom] at hg
        rw [rlStep_grant c p st a hr hb] at hg
        rcases List.mem_cons.mp hg with rfl | hg'
        · show st.lastReset ≤ st.lastReset
          omega
        · exact ih ⟨st.lastReset, st.made + 1, max a st.clock⟩
            (show st.lastReset ≤ max a st.clock by omega) g hg'

lemma rl_epoch_count (c p : Nat) (hc : 1 ≤ c) (hp : 1 ≤ p) :
    ∀ (as : List Nat) (st : RLState), st.lastReset ≤ st.clock → st.made ≤ c →
      ∀ e, ((rlRunFrom c p st as).filter (fun g => g.epoch == e)).length
        ≤ c - (if e = st.lastReset then st.made else 0) := by
  intro as
  induction as with
  | nil =>
    intro st _ _ e
    simp only [rlRunFrom, List.filter_nil, List.length_nil]
    omega
  | cons a as ih =>
    intro st hlc hmc e
    have hclock : st.clock ≤ max a st.clock := le_max_right a st.clock
    by_cases hr : p ≤ max a st.clock - st.lastReset
    · rw [rlRunFrom_cons, rlStep_reset_fst c p st a hr hc,
        rlStep_reset_snd c p st a hr hc]
      have hlt : st.lastReset < max a st.clock := by omega
      rw [List.filter_cons]
      by_cases he : ((⟨a, max a st.clock, max a st.clock⟩ : GrantRec).epoch == e) = true
      · have hee : e = max a st.clock := (eq_of_beq he).symm
        rw [if_pos he, List.length_cons]
        have hcnt : ((rlRunFrom c p ⟨max a st.clock, 1, max a st.clock⟩ as).filter
            (fun g => g.epoch == e)).length ≤ c - 1 := by
          have h0 := ih ⟨max a st.clock, 1, max a st.clock⟩ (Nat.le_refl _) hc e
          rw [if_pos hee] at h0
          exact h0
        rw [if_neg (by omega)]
        omega
      · rw [if_neg he]
        have hene : e ≠ max a st.clock := by
          intro hx
          apply he
          rw [hx]
          exact beq_self_eq_true _
        by_cases hes : e = st.lastReset
        · have hz : (rlRunFrom c p ⟨max a st.clock, 1, max a st.clock⟩ as).filter
              (fun g => g.epoch == e) = [] := by
            rw [List.filter_eq_nil_iff]
            intro g hg hgb
            have hlb : max a st.clock ≤ g.epoch :=
              rl_epoch_lb c p hc as ⟨max a st.clock, 1, max a st.clock⟩
                (Nat.le_refl _) g hg
            have := eq_of_beq hgb
            omega
          rw [hz]
          simp only [List.length_nil]
          omega
        · have hcnt : ((rlRunFrom c p ⟨max a st.clock, 1, max a st.clock⟩ as).filter
              (fun g => g.epoch == e)).length ≤ c - 0 := by
            have h0 := ih ⟨max a st.clock, 1, max a st.clock⟩ (Nat.le_refl _) hc e
            rw [if_neg hene] at h0
            exact h0
          rw [if_neg hes]
          omega
    · by_cases hb : c ≤ st.made
      · rw [rlRunFrom_cons, rlStep_sleep_fst c p st a hr hb,
          rlStep_sleep_snd c p st a hr hb]
        have hlt : st.lastReset < max a st.clock + (p - (max a st.clock - st.lastReset)) := by
          omega
        rw [List.filter_cons]
        by_cases he : ((⟨a, max a st.clock + (p - (max a st.clock - st.lastReset)),
            max a st.clock + (p - (max a st.clock - st.lastReset))⟩ : GrantRec).epoch == e) = true
        · have hee : e = max a st.clock + (p - (max a st.clock - st.lastReset)) :=
            (eq_of_beq he).symm
          rw [if_pos he, List.length_cons]
          have hcnt : ((rlRunFrom c p
              ⟨max a st.clock + (p - (max a st.clock - st.lastReset)), 1,
               max a st.clock + (p - (max a st.clock - st.lastReset))⟩ as).filter
              (fun g => g.epoch == e)).length ≤ c - 1 := by
            have h0 := ih ⟨max a st.clock + (p - (max a st.clock - st.lastReset)), 1,
              max a st.clock + (p - (max a st.clock - st.lastReset))⟩ (Nat.le_refl _) hc e
            rw [if_pos hee] at h0
            exact h0
          rw [if_neg (by omega)]
          omega
        · rw [if_neg he]
          have hene : e ≠ max a st.clock + (p - (max a st.clock - st.lastReset)) := by
            intro hx
            apply he
            rw [hx]
            exact beq_self_eq_true _
          by_cases hes : e = st.lastReset
          · have hz : (rlRunFrom c p ⟨max a st.clock + (p - (max a st.clock - st.lastReset)), 1,
                max a st.clock + (p - (max a st.clock - st.lastReset))⟩ as).filter
                (fun g => g.epoch == e) = [] := by
              rw [List.filter_eq_nil_iff]
              intro g hg hgb
              have hlb : max a st.clock + (p - (max a st.clock - st.lastReset)) ≤ g.epoch :=
                rl_epoch_lb c p hc as _ (Nat.le_refl _) g hg
              have := eq_of_beq hgb
              omega
            rw [hz]
            simp only [List.length_nil]
            omega
          · have hcnt : ((rlRunFrom c p
                ⟨max a st.clock + (p - (max a st.clock - st.lastReset)), 1,
                 max a st.clock + (p - (max a st.clock - st.lastReset))⟩ as).filter
                (fun g => g.epoch == e)).length ≤ c - 0 := by
              have h0 := ih ⟨max a st.clock + (p - (max a st.clock - st.lastReset)), 1,
                max a st.clock + (p - (max a st.clock - st.lastReset))⟩ (Nat.le_refl _) hc e
              rw [if_neg hene] at h0
              exact h0
            rw [if_neg hes]
            omega
      · rw [rlRunFrom_cons, rlStep_grant_fst c p st a hr hb,
          rlStep_grant_snd c p st a hr hb]
        rw [List.filter_cons]
        by_cases he : ((⟨a, max a st.clock, st.lastReset⟩ : GrantRec).epoch == e) = true
        · have hee : e = st.lastReset := (eq_of_beq he).symm
          rw [if_pos he, List.length_cons]
          have hstep : ((rlRunFrom c p ⟨st.lastReset, st.made + 1, max a st.clock⟩ as).filter
              (fun g => g.epoch == e)).length ≤ c - (st.made + 1) := by
            have h0 := ih ⟨st.lastReset, st.made + 1, max a st.clock⟩
              (show st.lastReset ≤ max a st.clock by omega)
              (show st.made + 1 ≤ c by omega) e
            rw [if_pos hee] at h0
            exact h0
          rw [if_pos hee]
          omega
        · rw [if_neg he]
          have hene : e ≠ st.lastReset := by
            intro hx
            apply he
            rw [hx]
            exact beq_self_eq_true _
          have hstep : ((rlRunFrom c p ⟨st.lastReset, st.made + 1, max a st.clock⟩ as).filter
              (fun g => g.epoch == e)).length ≤ c - 0 := by
            have h0 := ih ⟨st.lastReset, st.made + 1, max a st.clock⟩
              (show st.lastReset ≤ max a st.clock by omega)
              (show st.made + 1 ≤ c by omega) e
            rw [if_neg hene] at h0
            exact h0
          rw [if_neg hene]
          omega

/-- C7 counterexample: the limiter is not a rolling-window limiter — with the
deployed configuration of 10 calls per 60 seconds, twenty callers arriving at
instant 59 are all granted inside the single rolling window starting at 59
(ten at 59 in the first fixed window, ten at 60 after one reset), exceeding
the claimed bound of 10. -/
theorem claim_C7_counterexample :
    ((rlRun 10 60 0 (List.replicate 20 59)).filter
      (fun g => 59 ≤ g.grant && g.grant < 59 + 60)).length = 20
    ∧ 10 < 20 := by
  constructor
  · decide
  · decide

/-- C7 amended: the rate_limit decorator is a fixed-window limiter: every
call is granted (none dropped — the grant list matches the arrivals
one-to-one and each grant time is at or after its arrival, a delayed call
sleeps until the window ends and then proceeds), and at most N calls are
permitted within each limiter window (between consecutive resets of the
internal counter, identified by the last_reset value); a rolling window of
duration P spanning a reset boundary may however see up to 2N grants. -/
theorem claim_C7 (calls period t0 : Nat) (arrivals : List Nat)
    (hc : 1 ≤ calls) (_hp : 1 ≤ period) :
    (rlRun calls period t0 arrivals).length = arrivals.length
    ∧ (∀ g ∈ rlRun calls period t0 arrivals, g.arrival ≤ g.grant)
    ∧ (∀ e, ((rlRun calls period t0 arrivals).filter
        (fun g => g.epoch == e)).length ≤ calls) := by
  refine ⟨rl_length calls period arrivals ⟨t0, 0, t0⟩,
    rl_grant_ge_arrival calls period arrivals ⟨t0, 0, t0⟩, fun e => ?_⟩
  have h := rl_epoch_count calls period hc _hp arrivals ⟨t0, 0, t0⟩
    (Nat.le_refl t0) (show (0 : Nat) ≤ calls by omega) e
  by_cases he : e = t0
  · rw [if_pos he] at h
    exact le_trans h (by omega)
  · rw [if_neg he] at h
    exact le_trans h (by omega)

/-- C7 witness: a concrete run with the deployed configuration. -/
theorem claim_C7_witness :
    (rlRun 10 60 0 [5, 9]).length = ([5, 9] : List Nat).length
    ∧ (∀ g ∈ rlRun 10 60 0 [5, 9], g.arrival ≤ g.grant)
    ∧ (∀ e, ((rlRun 10 60 0 [5, 9]).filter
        (fun g => g.epoch == e)).length ≤ 10) :=
  claim_C7 10 60 0 [5, 9] (by decide) (by decide)
